import Mathlib

/-!
# Checkout outcome probability analysis — verification

A shallow embedding of `checkout-analytics.py` over the rationals (the
source works with Python floats; all quantities here are exact, so
"sums to 1.0 within 1e-9" statements become exact equalities).

The amount parameter is a rational; the `same_records` / attempt index
parameter is a natural number (the source only ever passes loop counters
`0, 1, ...`).
-/

/-- Raw 4-way outcome weights, mirroring the dict returned by
`create_weights` (keys `immediate, deferred, retry, fraud`). -/
structure OutcomeWeights where
  immediate : ℚ
  deferred : ℚ
  retry : ℚ
  fraud : ℚ
  deriving DecidableEq, Repr

/-- The raw `immediate` value of `create_weights` before clamping:
`immediate = 65 - s*10`, then `immediate -= s*5 + 15` when `amount > 5_000`. -/
def raw_immediate (amount : ℚ) (s : ℕ) : ℚ :=
  (65 - (s : ℚ) * 10) - (if 5000 < amount then (s : ℚ) * 5 + 15 else 0)

/-- The raw `deferred` value of `create_weights` before clamping:
`deferred = 20 + s*5`, then `deferred += s*5 + 10` when `amount > 1_000`. -/
def raw_deferred (amount : ℚ) (s : ℕ) : ℚ :=
  (20 + (s : ℚ) * 5) + (if 1000 < amount then (s : ℚ) * 5 + 10 else 0)

/-- The raw `retry` value of `create_weights` before clamping:
`retry = 10 + s*5`, then `retry += s*5 + 10` when `amount > 1_000`,
then `retry += s*5 + 30` when `amount > 5_000`. -/
def raw_retry (amount : ℚ) (s : ℕ) : ℚ :=
  (10 + (s : ℚ) * 5) + (if 1000 < amount then (s : ℚ) * 5 + 10 else 0)
    + (if 5000 < amount then (s : ℚ) * 5 + 30 else 0)

/-- The raw `fraud` value of `create_weights` before clamping:
`fraud = 0 + s*15`, then `fraud += s*10` when `amount > 5_000`,
then `fraud += s*30` when `amount > 10_000`. -/
def raw_fraud (amount : ℚ) (s : ℕ) : ℚ :=
  (0 + (s : ℚ) * 15) + (if 5000 < amount then (s : ℚ) * 10 else 0)
    + (if 10000 < amount then (s : ℚ) * 30 else 0)

/-- `immediate = max(0, immediate)` in `create_weights`. -/
def clamped_immediate (amount : ℚ) (s : ℕ) : ℚ := max 0 (raw_immediate amount s)

/-- `deferred = max(0, deferred)` in `create_weights`. -/
def clamped_deferred (amount : ℚ) (s : ℕ) : ℚ := max 0 (raw_deferred amount s)

/-- `retry = max(0, retry)` in `create_weights`. -/
def clamped_retry (amount : ℚ) (s : ℕ) : ℚ := max 0 (raw_retry amount s)

/-- `fraud = max(0, fraud)` in `create_weights`. -/
def clamped_fraud (amount : ℚ) (s : ℕ) : ℚ := max 0 (raw_fraud amount s)

/-- `total = immediate + deferred + retry + fraud` in `create_weights`. -/
def weight_total (amount : ℚ) (s : ℕ) : ℚ :=
  clamped_immediate amount s + clamped_deferred amount s
    + clamped_retry amount s + clamped_fraud amount s

/-- `create_weights(amount, same_records)`: clamp the raw weights at 0 and
normalize by their total. -/
def create_weights (amount : ℚ) (same_records : ℕ) : OutcomeWeights :=
  { immediate := clamped_immediate amount same_records / weight_total amount same_records
    deferred := clamped_deferred amount same_records / weight_total amount same_records
    retry := clamped_retry amount same_records / weight_total amount same_records
    fraud := clamped_fraud amount same_records / weight_total amount same_records }

/-- `CONFIRM_WEIGHTS`: the fixed confirm-phase raw weights. -/
def CONFIRM_WEIGHTS : OutcomeWeights :=
  { immediate := 0.35, deferred := 0.30, retry := 0.30, fraud := 0.05 }

/-- `DEFERRED_SUCCESS = 0.80`. -/
def DEFERRED_SUCCESS : ℚ := 0.80

/-- `DEFERRED_RETRY = 0.20 * 0.95`. -/
def DEFERRED_RETRY : ℚ := 0.20 * 0.95

/-- `DEFERRED_FRAUD = 0.20 * 0.05`. -/
def DEFERRED_FRAUD : ℚ := 0.20 * 0.05

/-- Effective 3-way per-attempt distribution, mirroring the dict returned by
`effective_attempt` (keys `success, retry, fraud`). -/
structure EffectiveAttempt where
  success : ℚ
  retry : ℚ
  fraud : ℚ
  deriving DecidableEq, Repr

/-- `effective_attempt(weights)`: combine raw SDK weights with deferred
webhook resolution. -/
def effective_attempt (w : OutcomeWeights) : EffectiveAttempt :=
  { success := w.immediate + w.deferred * DEFERRED_SUCCESS
    retry := w.retry + w.deferred * DEFERRED_RETRY
    fraud := w.fraud + w.deferred * DEFERRED_FRAUD }

/-- Final 3-way phase outcome, mirroring the dict returned by
`final_outcome_create` / `final_outcome_confirm`
(keys `success, fraud, retry_exhausted`). -/
structure PhaseOutcome where
  success : ℚ
  fraud : ℚ
  retry_exhausted : ℚ
  deriving DecidableEq, Repr

/-- One iteration of the retry loop body shared by `final_outcome_create` and
`final_outcome_confirm`:
`p_success += p_still_retrying * eff["success"]`,
`p_fraud += p_still_retrying * eff["fraud"]`,
`p_still_retrying *= eff["retry"]`. -/
def retry_step (eff : EffectiveAttempt) (p : PhaseOutcome) : PhaseOutcome :=
  { success := p.success + p.retry_exhausted * eff.success
    fraud := p.fraud + p.retry_exhausted * eff.fraud
    retry_exhausted := p.retry_exhausted * eff.retry }

/-- The accumulator state of `final_outcome_create`'s loop after `n`
iterations, starting from `p_success = 0, p_fraud = 0, p_still_retrying = 1`;
iteration `n` uses `create_weights(amount, same_records=n)`. -/
def create_loop (amount : ℚ) : ℕ → PhaseOutcome
  | 0 => { success := 0, fraud := 0, retry_exhausted := 1 }
  | n + 1 => retry_step (effective_attempt (create_weights amount n)) (create_loop amount n)

/-- `final_outcome_create(amount, max_retries)` (source default `max_retries=3`):
run the loop `max_retries` times; the remaining `p_still_retrying` mass is
reported as `retry_exhausted`. -/
def final_outcome_create (amount : ℚ) (max_retries : ℕ) : PhaseOutcome :=
  create_loop amount max_retries

/-- The accumulator state of `final_outcome_confirm`'s loop after `n`
iterations; the effective distribution is fixed
(`effective_attempt(CONFIRM_WEIGHTS)` computed once, outside the loop). -/
def confirm_loop : ℕ → PhaseOutcome
  | 0 => { success := 0, fraud := 0, retry_exhausted := 1 }
  | n + 1 => retry_step (effective_attempt CONFIRM_WEIGHTS) (confirm_loop n)

/-- `final_outcome_confirm(max_retries)` (source default `max_retries=3`). -/
def final_outcome_confirm (max_retries : ℕ) : PhaseOutcome :=
  confirm_loop max_retries

/-- End-to-end 5-way outcome, mirroring the dict returned by `end_to_end`. -/
structure EndToEndOutcome where
  success : ℚ
  create_fraud : ℚ
  confirm_fraud : ℚ
  create_retry_exhaust : ℚ
  confirm_retry_exhaust : ℚ
  deriving DecidableEq, Repr

/-- `end_to_end(amount)`: compose create (with the default 3 attempts) and
confirm (default 3 attempts); confirm is only reached when create succeeds. -/
def end_to_end (amount : ℚ) : EndToEndOutcome :=
  let c := final_outcome_create amount 3
  let k := final_outcome_confirm 3
  { success := c.success * k.success
    create_fraud := c.fraud
    confirm_fraud := c.success * k.fraud
    create_retry_exhaust := c.retry_exhausted
    confirm_retry_exhaust := c.success * k.retry_exhausted }

/-! ## Helper lemmas -/

lemma raw_deferred_ge_twenty (amount : ℚ) (s : ℕ) : 20 ≤ raw_deferred amount s := by
  have hs : (0 : ℚ) ≤ (s : ℚ) := Nat.cast_nonneg s
  unfold raw_deferred
  split <;> linarith

lemma clamped_deferred_ge_twenty (amount : ℚ) (s : ℕ) : 20 ≤ clamped_deferred amount s :=
  le_trans (raw_deferred_ge_twenty amount s) (le_max_right 0 _)

lemma clamped_immediate_nonneg (amount : ℚ) (s : ℕ) : 0 ≤ clamped_immediate amount s :=
  le_max_left 0 _

lemma clamped_deferred_nonneg (amount : ℚ) (s : ℕ) : 0 ≤ clamped_deferred amount s :=
  le_max_left 0 _

lemma clamped_retry_nonneg (amount : ℚ) (s : ℕ) : 0 ≤ clamped_retry amount s :=
  le_max_left 0 _

lemma clamped_fraud_nonneg (amount : ℚ) (s : ℕ) : 0 ≤ clamped_fraud amount s :=
  le_max_left 0 _

lemma weight_total_pos (amount : ℚ) (s : ℕ) : 0 < weight_total amount s := by
  have h1 := clamped_immediate_nonneg amount s
  have h2 := clamped_deferred_ge_twenty amount s
  have h3 := clamped_retry_nonneg amount s
  have h4 := clamped_fraud_nonneg amount s
  unfold weight_total
  linarith

lemma create_weights_sum_one (amount : ℚ) (s : ℕ) :
    (create_weights amount s).immediate + (create_weights amount s).deferred
      + (create_weights amount s).retry + (create_weights amount s).fraud = 1 := by
  have ht : weight_total amount s ≠ 0 := ne_of_gt (weight_total_pos amount s)
  simp only [create_weights]
  rw [div_add_div_same, div_add_div_same, div_add_div_same]
  have hnum : clamped_immediate amount s + clamped_deferred amount s
      + clamped_retry amount s + clamped_fraud amount s = weight_total amount s := rfl
  rw [hnum]
  exact div_self ht

lemma effective_attempt_sum (w : OutcomeWeights) :
    (effective_attempt w).success + (effective_attempt w).retry + (effective_attempt w).fraud
      = w.immediate + w.deferred + w.retry + w.fraud := by
  simp only [effective_attempt, DEFERRED_SUCCESS, DEFERRED_RETRY, DEFERRED_FRAUD]
  norm_num
  ring

lemma effective_create_sum_one (amount : ℚ) (s : ℕ) :
    (effective_attempt (create_weights amount s)).success
      + (effective_attempt (create_weights amount s)).retry
      + (effective_attempt (create_weights amount s)).fraud = 1 :=
  (effective_attempt_sum (create_weights amount s)).trans (create_weights_sum_one amount s)

lemma confirm_weights_sum_one :
    CONFIRM_WEIGHTS.immediate + CONFIRM_WEIGHTS.deferred
      + CONFIRM_WEIGHTS.retry + CONFIRM_WEIGHTS.fraud = 1 := by
  norm_num [CONFIRM_WEIGHTS]

lemma effective_confirm_sum_one :
    (effective_attempt CONFIRM_WEIGHTS).success + (effective_attempt CONFIRM_WEIGHTS).retry
      + (effective_attempt CONFIRM_WEIGHTS).fraud = 1 :=
  (effective_attempt_sum CONFIRM_WEIGHTS).trans confirm_weights_sum_one

lemma create_loop_sum_one (amount : ℚ) (n : ℕ) :
    (create_loop amount n).success + (create_loop amount n).fraud
      + (create_loop amount n).retry_exhausted = 1 := by
  induction n with
  | zero => simp [create_loop]
  | succ k ih =>
    have he := effective_create_sum_one amount k
    simp only [create_loop, retry_step]
    linear_combination ih + (create_loop amount k).retry_exhausted * he

lemma confirm_loop_sum_one (n : ℕ) :
    (confirm_loop n).success + (confirm_loop n).fraud
      + (confirm_loop n).retry_exhausted = 1 := by
  induction n with
  | zero => simp [confirm_loop]
  | succ k ih =>
    have he := effective_confirm_sum_one
    simp only [confirm_loop, retry_step]
    linear_combination ih + (confirm_loop k).retry_exhausted * he

/-! ## Congruence helpers: the amount only matters through the three
threshold comparisons `> 1000`, `> 5000`, `> 10000`. -/

lemma raw_immediate_congr (a a' : ℚ) (s : ℕ) (h2 : 5000 < a ↔ 5000 < a') :
    raw_immediate a s = raw_immediate a' s := by
  unfold raw_immediate
  by_cases hc : 5000 < a
  · rw [if_pos hc, if_pos (h2.mp hc)]
  · rw [if_neg hc, if_neg (fun hc' => hc (h2.mpr hc'))]

lemma raw_deferred_congr (a a' : ℚ) (s : ℕ) (h1 : 1000 < a ↔ 1000 < a') :
    raw_deferred a s = raw_deferred a' s := by
  unfold raw_deferred
  by_cases hc : 1000 < a
  · rw [if_pos hc, if_pos (h1.mp hc)]
  · rw [if_neg hc, if_neg (fun hc' => hc (h1.mpr hc'))]

lemma raw_retry_congr (a a' : ℚ) (s : ℕ) (h1 : 1000 < a ↔ 1000 < a')
    (h2 : 5000 < a ↔ 5000 < a') : raw_retry a s = raw_retry a' s := by
  unfold raw_retry
  by_cases hc : 1000 < a
  · rw [if_pos hc, if_pos (h1.mp hc)]
    by_cases hd : 5000 < a
    · rw [if_pos hd, if_pos (h2.mp hd)]
    · rw [if_neg hd, if_neg (fun hd' => hd (h2.mpr hd'))]
  · rw [if_neg hc, if_neg (fun hc' => hc (h1.mpr hc'))]
    by_cases hd : 5000 < a
    · rw [if_pos hd, if_pos (h2.mp hd)]
    · rw [if_neg hd, if_neg (fun hd' => hd (h2.mpr hd'))]

lemma raw_fraud_congr (a a' : ℚ) (s : ℕ) (h2 : 5000 < a ↔ 5000 < a')
    (h3 : 10000 < a ↔ 10000 < a') : raw_fraud a s = raw_fraud a' s := by
  unfold raw_fraud
  by_cases hc : 5000 < a
  · rw [if_pos hc, if_pos (h2.mp hc)]
    by_cases hd : 10000 < a
    · rw [if_pos hd, if_pos (h3.mp hd)]
    · rw [if_neg hd, if_neg (fun hd' => hd (h3.mpr hd'))]
  · rw [if_neg hc, if_neg (fun hc' => hc (h2.mpr hc'))]
    by_cases hd : 10000 < a
    · rw [if_pos hd, if_pos (h3.mp hd)]
    · rw [if_neg hd, if_neg (fun hd' => hd (h3.mpr hd'))]

lemma create_weights_congr (a a' : ℚ) (s : ℕ) (h1 : 1000 < a ↔ 1000 < a')
    (h2 : 5000 < a ↔ 5000 < a') (h3 : 10000 < a ↔ 10000 < a') :
    create_weights a s = create_weights a' s := by
  have r1 := raw_immediate_congr a a' s h2
  have r2 := raw_deferred_congr a a' s h1
  have r3 := raw_retry_congr a a' s h1 h2
  have r4 := raw_fraud_congr a a' s h2 h3
  simp only [create_weights, weight_total, clamped_immediate, clamped_deferred,
    clamped_retry, clamped_fraud, r1, r2, r3, r4]

lemma create_loop_congr (a a' : ℚ) (h1 : 1000 < a ↔ 1000 < a')
    (h2 : 5000 < a ↔ 5000 < a') (h3 : 10000 < a ↔ 10000 < a') (n : ℕ) :
    create_loop a n = create_loop a' n := by
  induction n with
  | zero => rfl
  | succ k ih =>
    simp only [create_loop]
    rw [create_weights_congr a a' k h1 h2 h3, ih]

lemma end_to_end_congr (a a' : ℚ) (h1 : 1000 < a ↔ 1000 < a')
    (h2 : 5000 < a ↔ 5000 < a') (h3 : 10000 < a ↔ 10000 < a') :
    end_to_end a = end_to_end a' := by
  unfold end_to_end final_outcome_create
  rw [create_loop_congr a a' h1 h2 h3 3]

/-! ## Claim theorems -/

/-- C1: for every amount ≥ 0 and every attempt index, `create_weights`
returns a 4-way mapping (the `OutcomeWeights` record, with exactly the
fields `immediate, deferred, retry, fraud`) whose values are all ≥ 0 and
sum to 1 exactly. -/
theorem create_weights_is_distribution (amount : ℚ) (ha : 0 ≤ amount) (s : ℕ) :
    0 ≤ (create_weights amount s).immediate ∧ 0 ≤ (create_weights amount s).deferred ∧
    0 ≤ (create_weights amount s).retry ∧ 0 ≤ (create_weights amount s).fraud ∧
    (create_weights amount s).immediate + (create_weights amount s).deferred
      + (create_weights amount s).retry + (create_weights amount s).fraud = 1 := by
  have ht : (0 : ℚ) ≤ weight_total amount s := le_of_lt (weight_total_pos amount s)
  refine ⟨?_, ?_, ?_, ?_, create_weights_sum_one amount s⟩
  · exact div_nonneg (clamped_immediate_nonneg amount s) ht
  · exact div_nonneg (clamped_deferred_nonneg amount s) ht
  · exact div_nonneg (clamped_retry_nonneg amount s) ht
  · exact div_nonneg (clamped_fraud_nonneg amount s) ht

/-- Witness for C1 at `amount = 7500`, `attempt_index = 0`. -/
theorem create_weights_is_distribution_witness :
    0 ≤ (create_weights 7500 0).immediate ∧ 0 ≤ (create_weights 7500 0).deferred ∧
    0 ≤ (create_weights 7500 0).retry ∧ 0 ≤ (create_weights 7500 0).fraud ∧
    (create_weights 7500 0).immediate + (create_weights 7500 0).deferred
      + (create_weights 7500 0).retry + (create_weights 7500 0).fraud = 1 :=
  create_weights_is_distribution 7500 (by norm_num) 0

/-- C2: for every 4-way weights mapping with non-negative values summing
to 1, the three values of `effective_attempt` sum to 1 exactly. -/
theorem effective_attempt_partition (w : OutcomeWeights)
    (h1 : 0 ≤ w.immediate) (h2 : 0 ≤ w.deferred) (h3 : 0 ≤ w.retry) (h4 : 0 ≤ w.fraud)
    (hsum : w.immediate + w.deferred + w.retry + w.fraud = 1) :
    (effective_attempt w).success + (effective_attempt w).retry
      + (effective_attempt w).fraud = 1 :=
  (effective_attempt_sum w).trans hsum

/-- Witness for C2 at `w = CONFIRM_WEIGHTS`. -/
theorem effective_attempt_partition_witness :
    (effective_attempt CONFIRM_WEIGHTS).success + (effective_attempt CONFIRM_WEIGHTS).retry
      + (effective_attempt CONFIRM_WEIGHTS).fraud = 1 :=
  effective_attempt_partition CONFIRM_WEIGHTS (by norm_num [CONFIRM_WEIGHTS])
    (by norm_num [CONFIRM_WEIGHTS]) (by norm_num [CONFIRM_WEIGHTS])
    (by norm_num [CONFIRM_WEIGHTS]) (by norm_num [CONFIRM_WEIGHTS])

/-- C3: for every amount ≥ 0 and max_attempts ≥ 1, the three values of
`final_outcome_create` sum to 1 exactly; each loop iteration `k` applies the
shared retry-step with `create_weights(amount, k)` (attempt index counts up
from 0); and `retry_exhausted` is exactly the loop's remaining
`p_still_retrying` mass. -/
theorem final_outcome_create_partition (amount : ℚ) (n : ℕ)
    (ha : 0 ≤ amount) (hn : 1 ≤ n) :
    ((final_outcome_create amount n).success + (final_outcome_create amount n).fraud
      + (final_outcome_create amount n).retry_exhausted = 1) ∧
    (∀ k, k < n → create_loop amount (k + 1)
      = retry_step (effective_attempt (create_weights amount k)) (create_loop amount k)) ∧
    (final_outcome_create amount n).retry_exhausted
      = (create_loop amount n).retry_exhausted :=
  ⟨create_loop_sum_one amount n, fun _ _ => rfl, rfl⟩

/-- Witness for C3 at `amount = 7500`, `max_attempts = 3`. -/
theorem final_outcome_create_partition_witness :
    ((final_outcome_create 7500 3).success + (final_outcome_create 7500 3).fraud
      + (final_outcome_create 7500 3).retry_exhausted = 1) ∧
    (create_loop 7500 1
      = retry_step (effective_attempt (create_weights 7500 0)) (create_loop 7500 0)) ∧
    (final_outcome_create 7500 3).retry_exhausted = (create_loop 7500 3).retry_exhausted :=
  ⟨(final_outcome_create_partition 7500 3 (by norm_num) (by norm_num)).1,
   (final_outcome_create_partition 7500 3 (by norm_num) (by norm_num)).2.1 0 (by norm_num),
   (final_outcome_create_partition 7500 3 (by norm_num) (by norm_num)).2.2⟩

/-- C4: for every amount ≥ 0, `end_to_end(amount)` is exactly the stated
composition of `final_outcome_create(amount, 3)` and
`final_outcome_confirm(3)`, and its five values sum to 1 exactly. -/
theorem end_to_end_composition (amount : ℚ) (ha : 0 ≤ amount) :
    (end_to_end amount = {
      success := (final_outcome_create amount 3).success * (final_outcome_confirm 3).success
      create_fraud := (final_outcome_create amount 3).fraud
      confirm_fraud := (final_outcome_create amount 3).success * (final_outcome_confirm 3).fraud
      create_retry_exhaust := (final_outcome_create amount 3).retry_exhausted
      confirm_retry_exhaust :=
        (final_outcome_create amount 3).success * (final_outcome_confirm 3).retry_exhausted }) ∧
    (end_to_end amount).success + (end_to_end amount).create_fraud
      + (end_to_end amount).confirm_fraud + (end_to_end amount).create_retry_exhaust
      + (end_to_end amount).confirm_retry_exhaust = 1 := by
  refine ⟨rfl, ?_⟩
  have hc := create_loop_sum_one amount 3
  have hk := confirm_loop_sum_one 3
  simp only [end_to_end, final_outcome_create, final_outcome_confirm]
  linear_combination hc + (create_loop amount 3).success * hk

/-- Witness for C4 at `amount = 100`. -/
theorem end_to_end_composition_witness :
    (end_to_end 100 = {
      success := (final_outcome_create 100 3).success * (final_outcome_confirm 3).success
      create_fraud := (final_outcome_create 100 3).fraud
      confirm_fraud := (final_outcome_create 100 3).success * (final_outcome_confirm 3).fraud
      create_retry_exhaust := (final_outcome_create 100 3).retry_exhausted
      confirm_retry_exhaust :=
        (final_outcome_create 100 3).success * (final_outcome_confirm 3).retry_exhausted }) ∧
    (end_to_end 100).success + (end_to_end 100).create_fraud
      + (end_to_end 100).confirm_fraud + (end_to_end 100).create_retry_exhaust
      + (end_to_end 100).confirm_retry_exhaust = 1 :=
  end_to_end_composition 100 (by norm_num)

/-- C5 counterexample: at `create_weights(7500, 0)` the `> 5000` fraud
surcharge is `s * 10 = 0`, so the raw fraud value is 0 (not 10), the raw
total is 130 (not 140), and the normalized fraud value is 0 (not 1/14 ≈
0.0714). -/
theorem create_weights_7500_fraud_refuted :
    raw_fraud 7500 0 = 0 ∧ raw_fraud 7500 0 ≠ 10 ∧
    weight_total 7500 0 = 130 ∧ weight_total 7500 0 ≠ 140 ∧
    (create_weights 7500 0).fraud = 0 ∧ (create_weights 7500 0).fraud ≠ 1 / 14 := by
  norm_num [create_weights, clamped_immediate, clamped_deferred, clamped_retry,
    clamped_fraud, raw_immediate, raw_deferred, raw_retry, raw_fraud, weight_total]

/-- C5 amended: `create_weights(7500, 0)` computes raw values
`immediate = 50, deferred = 30, retry = 50, fraud = 0` with raw total 130,
and returns the normalized distribution
`{immediate: 5/13 ≈ 0.3846, deferred: 3/13 ≈ 0.2308, retry: 5/13, fraud: 0}`. -/
theorem create_weights_7500_amended :
    raw_immediate 7500 0 = 50 ∧ raw_deferred 7500 0 = 30 ∧
    raw_retry 7500 0 = 50 ∧ raw_fraud 7500 0 = 0 ∧ weight_total 7500 0 = 130 ∧
    create_weights 7500 0 = ⟨5 / 13, 3 / 13, 5 / 13, 0⟩ := by
  norm_num [create_weights, clamped_immediate, clamped_deferred, clamped_retry,
    clamped_fraud, raw_immediate, raw_deferred, raw_retry, raw_fraud, weight_total,
    OutcomeWeights.mk.injEq]

/-- C6: with `max_attempts = 0` the aggregators return exactly
`{success: 0, fraud: 0, retry_exhausted: 1}` (the loop body never runs, and
no division is involved). -/
theorem max_attempts_zero_outcome (amount : ℚ) (ha : 0 ≤ amount) :
    final_outcome_create amount 0 = ⟨0, 0, 1⟩ ∧ final_outcome_confirm 0 = ⟨0, 0, 1⟩ :=
  ⟨rfl, rfl⟩

/-- Witness for C6 at `amount = 100`. -/
theorem max_attempts_zero_outcome_witness :
    final_outcome_create 100 0 = ⟨0, 0, 1⟩ ∧ final_outcome_confirm 0 = ⟨0, 0, 1⟩ :=
  max_attempts_zero_outcome 100 (by norm_num)

/-- C7 counterexample: at the negative amount `-5` the implementation does
not reject; it evaluates the tier comparisons (all false) and returns the
normalized base weights `{immediate: 13/19, deferred: 4/19, retry: 2/19,
fraud: 0}`. -/
theorem negative_amount_returns_result :
    create_weights (-5) 0 = ⟨13 / 19, 4 / 19, 2 / 19, 0⟩ := by
  norm_num [create_weights, clamped_immediate, clamped_deferred, clamped_retry,
    clamped_fraud, raw_immediate, raw_deferred, raw_retry, raw_fraud, weight_total,
    OutcomeWeights.mk.injEq]

/-- C7 amended: for every negative amount the implementation does not
reject; the three tier comparisons all evaluate false and `create_weights`,
`final_outcome_create` and `end_to_end` silently return the same results as
for `amount = 0`. -/
theorem negative_amount_silent_evaluation (amount : ℚ) (h : amount < 0) (s n : ℕ) :
    create_weights amount s = create_weights 0 s ∧
    final_outcome_create amount n = final_outcome_create 0 n ∧
    end_to_end amount = end_to_end 0 := by
  have h1 : 1000 < amount ↔ 1000 < (0 : ℚ) := iff_of_false (by linarith) (by norm_num)
  have h2 : 5000 < amount ↔ 5000 < (0 : ℚ) := iff_of_false (by linarith) (by norm_num)
  have h3 : 10000 < amount ↔ 10000 < (0 : ℚ) := iff_of_false (by linarith) (by norm_num)
  refine ⟨create_weights_congr amount 0 s h1 h2 h3, ?_, end_to_end_congr amount 0 h1 h2 h3⟩
  unfold final_outcome_create
  rw [create_loop_congr amount 0 h1 h2 h3 n]

/-- Witness for the amended C7 at `amount = -5`, `s = 0`, `n = 3`. -/
theorem negative_amount_silent_evaluation_witness :
    create_weights (-5) 0 = create_weights 0 0 ∧
    final_outcome_create (-5) 3 = final_outcome_create 0 3 ∧
    end_to_end (-5) = end_to_end 0 :=
  negative_amount_silent_evaluation (-5) (by norm_num) 0 3

/-- C8 counterexample: at `amount = 7500 > 5000`, from attempt index 4 to 5
the clamped pre-normalization immediate value is 0 both times, so it does
not strictly decrease at every step. -/
theorem clamped_immediate_strict_decrease_refuted :
    (5000 : ℚ) < 7500 ∧ clamped_immediate 7500 4 = 0 ∧ clamped_immediate 7500 5 = 0 ∧
    ¬ clamped_immediate 7500 5 < clamped_immediate 7500 4 := by
  norm_num [clamped_immediate, raw_immediate]

/-- C8 amended: for fixed amount > 5000, as the attempt index increases by 1
the clamped pre-normalization immediate value never increases and strictly
decreases as long as it has not yet reached its lower bound 0, while the raw
fraud value strictly increases. -/
theorem clamped_immediate_decrease_amended (amount : ℚ) (h : 5000 < amount) (s : ℕ) :
    clamped_immediate amount (s + 1) ≤ clamped_immediate amount s ∧
    (0 < clamped_immediate amount (s + 1) →
      clamped_immediate amount (s + 1) < clamped_immediate amount s) ∧
    raw_fraud amount s < raw_fraud amount (s + 1) := by
  have hr : raw_immediate amount (s + 1) = raw_immediate amount s - 15 := by
    unfold raw_immediate
    rw [if_pos h, if_pos h]
    push_cast
    ring
  refine ⟨?_, ?_, ?_⟩
  · unfold clamped_immediate
    rw [hr]
    exact max_le_max le_rfl (by linarith)
  · intro hpos
    unfold clamped_immediate at hpos ⊢
    have hx : 0 < raw_immediate amount (s + 1) := by
      rcases lt_max_iff.mp hpos with h0 | h0
      · exact absurd h0 (lt_irrefl 0)
      · exact h0
    calc max 0 (raw_immediate amount (s + 1)) = raw_immediate amount (s + 1) :=
          max_eq_right (le_of_lt hx)
      _ < raw_immediate amount s := by rw [hr]; linarith
      _ ≤ max 0 (raw_immediate amount s) := le_max_right 0 _
  · by_cases h10 : (10000 : ℚ) < amount
    · simp only [raw_fraud, if_pos h, if_pos h10]
      push_cast
      linarith
    · simp only [raw_fraud, if_pos h, if_neg h10]
      push_cast
      linarith

/-- Witness for the amended C8 at `amount = 7500`, from attempt index 0 to 1
(where the clamped immediate value is still positive, hence strictly
decreases). -/
theorem clamped_immediate_decrease_amended_witness :
    clamped_immediate 7500 1 < clamped_immediate 7500 0 ∧
    raw_fraud 7500 0 < raw_fraud 7500 1 :=
  ⟨(clamped_immediate_decrease_amended 7500 (by norm_num) 0).2.1
      (by norm_num [clamped_immediate, raw_immediate]),
   (clamped_immediate_decrease_amended 7500 (by norm_num) 0).2.2⟩

/-- C9: `create_weights` is total for every rational amount (negative
included) and every attempt index: the clamped deferred weight is at least
20, so the normalization divisor is strictly positive and the four returned
values sum to 1. -/
theorem create_weights_total_safety (amount : ℚ) (s : ℕ) :
    20 ≤ clamped_deferred amount s ∧ 0 < weight_total amount s ∧
    (create_weights amount s).immediate + (create_weights amount s).deferred
      + (create_weights amount s).retry + (create_weights amount s).fraud = 1 :=
  ⟨clamped_deferred_ge_twenty amount s, weight_total_pos amount s,
   create_weights_sum_one amount s⟩

/-- C10: two amounts that compare identically against the three thresholds
1000, 5000, 10000 give identical results from `create_weights`,
`final_outcome_create` and `end_to_end`: the amount influences the output
only through the three threshold comparisons. -/
theorem amount_threshold_equivalence (a a' : ℚ) (s n : ℕ)
    (h1 : 1000 < a ↔ 1000 < a') (h2 : 5000 < a ↔ 5000 < a')
    (h3 : 10000 < a ↔ 10000 < a') :
    create_weights a s = create_weights a' s ∧
    final_outcome_create a n = final_outcome_create a' n ∧
    end_to_end a = end_to_end a' := by
  refine ⟨create_weights_congr a a' s h1 h2 h3, ?_, end_to_end_congr a a' h1 h2 h3⟩
  unfold final_outcome_create
  rw [create_loop_congr a a' h1 h2 h3 n]

/-- Witness for C10 at `a = 2000`, `a' = 3000` (both strictly between 1000
and 5000), `s = 0`, `n = 3`. -/
theorem amount_threshold_equivalence_witness :
    create_weights 2000 0 = create_weights 3000 0 ∧
    final_outcome_create 2000 3 = final_outcome_create 3000 3 ∧
    end_to_end 2000 = end_to_end 3000 :=
  amount_threshold_equivalence 2000 3000 0 3 (by norm_num) (by norm_num) (by norm_num)
